import Mathlib

/-!
Shallow embedding of `src/app.py` (solana-reward-api): a Flask service with a
single payment route `POST /reward/send`, an in-memory idempotency store
`PAID` with a 7-day TTL sweep `cleanup_paid`, amount validation under Python
float comparison semantics, base58 recipient-address validation, and a
startup check of the payer secret.

Modelling conventions:
- Python floats are modelled as `PyFloat`: NaN, ±infinity, or an exact
  rational.  Comparisons with NaN are false, as in IEEE-754 / Python.
- JSON scalars reachable from a Flask-parsed body are `JVal`.
- The ledger RPC (blockhash fetch + send) is an oracle `NetOutcome` supplied
  to the handler; the handler reports the list of `send_transaction` calls it
  made so that "submit invoked exactly once" is observable.
- `time.time()` is passed in explicitly: `nowSweep` for the sweep at the top
  of the handler and `nowRecord` for the record written on success.
- An exception that escapes the handler (e.g. `int(nan * 1e9)`) is the
  distinguished response `HResp.crash`, Flask's generic 500, not a JSON body
  built by the handler.
-/

set_option allowUnsafeReducibility true

attribute [local semireducible] Rat.mul Rat.div Rat.add Rat.sub Rat.blt
  Rat.neg Rat.inv Rat.normalize Rat.maybeNormalize

namespace SolRender

/-- Python float values: NaN, +inf, -inf, or a finite value modelled exactly
as a rational. -/
inductive PyFloat where
  | nan
  | inf
  | ninf
  | fin (q : ℚ)
  deriving DecidableEq, Repr

/-- Python `a <= b` on floats: any comparison with NaN is false. -/
def ple : PyFloat → PyFloat → Bool
  | .nan, _ => false
  | _, .nan => false
  | .ninf, _ => true
  | .inf, .inf => true
  | .inf, _ => false
  | .fin _, .inf => true
  | .fin _, .ninf => false
  | .fin a, .fin b => a ≤ b

/-- Python `a > b` on floats: any comparison with NaN is false. -/
def pgt : PyFloat → PyFloat → Bool
  | .nan, _ => false
  | _, .nan => false
  | .inf, .inf => false
  | .inf, _ => true
  | .ninf, _ => false
  | .fin _, .inf => false
  | .fin _, .ninf => true
  | .fin a, .fin b => b < a

/-- JSON scalar values as produced by Flask's `request.get_json` (Python's
`json` module also parses the non-standard literals NaN/Infinity, hence
`jfloat` can carry any `PyFloat`). Arrays/objects as field values are not
needed by the route and are omitted; they would fail `float()` like `jnull`. -/
inductive JVal where
  | jnull
  | jbool (b : Bool)
  | jint (i : ℤ)
  | jfloat (x : PyFloat)
  | jstr (s : String)
  deriving DecidableEq, Repr

/-- Python truthiness of a JSON scalar (`if v:`). NaN and the infinities are
truthy. -/
def truthy : JVal → Bool
  | .jnull => false
  | .jbool b => b
  | .jint i => i ≠ 0
  | .jfloat (.fin q) => q ≠ 0
  | .jfloat _ => true
  | .jstr s => s ≠ ""

/-- Python `str()` of a JSON scalar, used to coerce the idempotency key at
`str(idem_key)`.  The rendering of finite floats abbreviates Python's
shortest-roundtrip repr; it is injective on the rationals, which is all the
key coercion needs. -/
def pyStr : JVal → String
  | .jstr s => s
  | .jint i => toString i
  | .jbool true => "True"
  | .jbool false => "False"
  | .jnull => "None"
  | .jfloat .nan => "nan"
  | .jfloat .inf => "inf"
  | .jfloat .ninf => "-inf"
  | .jfloat (.fin q) => toString q

/-- Value of a list of decimal digit characters, all of which must be digits
(`some 0` on the empty list; emptiness is checked by callers). -/
def digitsVal (cs : List Char) : Option ℕ :=
  if cs.all (·.isDigit) then
    some (cs.foldl (fun a c => a * 10 + (c.toNat - 48)) 0)
  else none

/-- Strip one leading sign; returns (negative?, rest). -/
def stripSign : List Char → Bool × List Char
  | '+' :: r => (false, r)
  | '-' :: r => (true, r)
  | r => (false, r)

/-- Parse an unsigned decimal mantissa `digits[.digits]` (at least one digit
overall) to an exact rational. -/
def parseMantissa (cs : List Char) : Option ℚ :=
  match cs.splitOn '.' with
  | [ip] => (digitsVal ip).bind fun n => if ip = [] then none else some (n : ℚ)
  | [ip, fp] =>
    (digitsVal ip).bind fun n =>
      (digitsVal fp).bind fun f =>
        if ip = [] ∧ fp = [] then none
        else some ((n : ℚ) + (f : ℚ) / (10 : ℚ) ^ fp.length)
  | _ => none

/-- Parse an exponent suffix `[sign]digits` to an integer. -/
def parseExp (cs : List Char) : Option ℤ :=
  let (neg, r) := stripSign cs
  (digitsVal r).bind fun n =>
    if r = [] then none else some (if neg then -(n : ℤ) else (n : ℤ))

/-- Leading/trailing whitespace removal, as Python's `str.strip()` (ASCII
whitespace; exotic unicode spaces are not modelled). -/
def trimChars (cs : List Char) : List Char :=
  ((cs.dropWhile Char.isWhitespace).reverse.dropWhile Char.isWhitespace).reverse

/-- ASCII lowercase conversion of one character, as in Python's
case-insensitive float keyword matching. -/
def lowerChar (c : Char) : Char :=
  if 'A' ≤ c ∧ c ≤ 'Z' then Char.ofNat (c.toNat + 32) else c

/-- Python `float(s)` on a string: strips whitespace, accepts an optional
sign followed by `nan`, `inf`/`infinity` (case-insensitive), or a decimal
with optional exponent.  (Underscore digit separators are not modelled.) -/
def strToPyFloat (s : String) : Option PyFloat :=
  let t := (trimChars s.toList).map lowerChar
  let (neg, r) := stripSign t
  if r = "nan".toList then some .nan
  else if r = "inf".toList ∨ r = "infinity".toList then
    some (if neg then .ninf else .inf)
  else
    match r.splitOn 'e' with
    | [m] => (parseMantissa m).map fun q => .fin (if neg then -q else q)
    | [m, ex] =>
      (parseMantissa m).bind fun q =>
        (parseExp ex).map fun e =>
          .fin (if neg then -(q * (10 : ℚ) ^ e) else q * (10 : ℚ) ^ e)
    | _ => none

/-- Python `float(v)` on a JSON scalar: numbers pass through, booleans become
0/1, strings are parsed, `None` (and non-scalars) raise — modelled as `none`. -/
def pyFloatOf : JVal → Option PyFloat
  | .jnull => none
  | .jbool b => some (.fin (if b then 1 else 0))
  | .jint i => some (.fin (i : ℚ))
  | .jfloat x => some x
  | .jstr s => strToPyFloat s

/-- Python `int()` truncation toward zero of a float; raises (`none`) on NaN
and the infinities. -/
def pyInt : PyFloat → Option ℤ
  | .fin q => some (Int.tdiv q.num (q.den : ℤ))
  | _ => none

/-- `LAMPORTS_PER_SOL = 1_000_000_000`. -/
def LAMPORTS_PER_SOL : ℕ := 1000000000

/-- Float multiplication `amount_sol * LAMPORTS_PER_SOL` (exact on finite
values; NaN and infinities propagate). -/
def mulLamports : PyFloat → PyFloat
  | .nan => .nan
  | .inf => .inf
  | .ninf => .ninf
  | .fin q => .fin (q * (LAMPORTS_PER_SOL : ℚ))

/-- The base58 alphabet used by the `base58` package and solders. -/
def B58_ALPHABET : List Char :=
  "123456789ABCDEFGHJKLMNPQRSTUVWXYZabcdefghijkmnopqrstuvwxyz".toList

/-- Index of a character in the base58 alphabet, `none` if it is not a
base58 digit. -/
def b58Digit (c : Char) : Option ℕ :=
  B58_ALPHABET.findIdx? (· = c)

/-- Big-endian base-256 digits of `n`; the first argument is structural fuel
(`fuel = n` suffices since `n / 256 < n` for `n > 0`), so the definition
reduces by kernel computation. -/
def natToBytesBE : ℕ → ℕ → List ℕ
  | _, 0 => []
  | 0, _ + 1 => []
  | fuel + 1, n + 1 => natToBytesBE fuel ((n + 1) / 256) ++ [(n + 1) % 256]

/-- `base58.b58decode`: fails on any character outside the alphabet,
otherwise interprets the string as a base-58 big-endian number with each
leading `'1'` contributing one leading zero byte. -/
def b58decode (s : String) : Option (List ℕ) :=
  (s.toList.mapM b58Digit).map fun ds =>
    let acc := ds.foldl (fun a d => a * 58 + d) 0
    let nz := (s.toList.takeWhile (· = '1')).length
    List.replicate nz 0 ++ natToBytesBE acc acc

/-- `Pubkey.from_string`: succeeds exactly when the string base58-decodes to
32 bytes. -/
def validPubkey (s : String) : Bool :=
  match b58decode s with
  | some bs => bs.length = 32
  | none => false

/-- Startup of the module (lines 27–43): read
`REWARD_WALLET_SECRET_BASE58`, abort (`Except.error`) if it is unset or
empty, base58-decode it (a decode exception also aborts startup), abort
unless exactly 64 bytes, and finally build the payer keypair with
`Keypair.from_bytes(secret_bytes)`.  That constructor is external library
code (solders/ed25519): it raises — aborting startup — when the 64 bytes are
not a valid keypair (public-key half not a valid ed25519 point, or, in
current solders, not the public key derived from the secret half), so it
enters the model as the `fromBytes` oracle, exactly as the RPC client enters
`reward_send` as `NetOutcome`; an uncaught raise is `.error`, success
returns the keypair (modelled as its bytes). -/
def startup (secretB58 : Option String)
    (fromBytes : List ℕ → Except String (List ℕ)) : Except String (List ℕ) :=
  match secretB58 with
  | none => .error "Missing REWARD_WALLET_SECRET_BASE58"
  | some s =>
    if s = "" then .error "Missing REWARD_WALLET_SECRET_BASE58"
    else
      match b58decode s with
      | none => .error "base58 decode failure"
      | some bytes =>
        if bytes.length ≠ 64 then
          .error "REWARD_WALLET_SECRET_BASE58 must decode to 64 bytes"
        else fromBytes bytes

/-- `PAID_TTL_SEC = 60 * 60 * 24 * 7` seconds. -/
def PAID_TTL_SEC : ℚ := 60 * 60 * 24 * 7

/-- The `PAID` dict: keys `(receiver, str(idem_key))`, values
`(signature, recorded-at timestamp)`, in insertion order. -/
abbrev Store : Type := List ((String × String) × (String × ℚ))

/-- Dict membership/lookup `PAID[key]`: first entry with the key. -/
def lookupPaid : Store → String × String → Option (String × ℚ)
  | [], _ => none
  | (k, v) :: rest, key => if k = key then some v else lookupPaid rest key

/-- Dict assignment `PAID[key] = v`: replaces the first entry with the key in
place, appends if absent. -/
def insertPaid : Store → String × String → String × ℚ → Store
  | [], key, v => [(key, v)]
  | (k, w) :: rest, key, v =>
    if k = key then (k, v) :: rest else (k, w) :: insertPaid rest key v

/-- `cleanup_paid()`: pops every entry whose age at `now` exceeds
`PAID_TTL_SEC`, keeping the rest in order. -/
def cleanup_paid (now : ℚ) : Store → Store
  | [] => []
  | (k, v) :: rest =>
    if now - v.2 > PAID_TTL_SEC then cleanup_paid now rest
    else (k, v) :: cleanup_paid now rest

/-- One `client.send_transaction` call: recipient and lamports. -/
structure Submission where
  to_pubkey : String
  lamports : ℤ
  deriving DecidableEq, Repr

/-- Oracle for the RPC interactions inside the `try` block: the blockhash
fetch fails (no send happens), the send raises, or the send succeeds with a
signature. -/
inductive NetOutcome where
  | blockhashFail (e : String)
  | sendFail (e : String)
  | success (sig : String)
  deriving DecidableEq, Repr

/-- An HTTP response: a JSON body built by the handler with a status code, or
an exception escaping the handler (Flask's generic 500 error page). -/
inductive HResp where
  | json (obj : List (String × JVal)) (status : ℕ)
  | crash (msg : String)
  deriving DecidableEq, Repr

/-- The request body fields the route reads; `none` means the field is absent
from the JSON object (Python's `dict.get` also yields `None` for a JSON
`null`, which is `some .jnull` here — the two behave identically downstream). -/
structure ReqBody where
  receiver_wallet_address : Option JVal
  amount_sol : Option JVal
  idempotency_key : Option JVal
  deriving DecidableEq, Repr

/-- Result of one handler invocation: the response, the `PAID` store after
the request, and the `send_transaction` calls made. -/
structure HandlerResult where
  resp : HResp
  store : Store
  submits : List Submission
  deriving DecidableEq

/-- The amount check of lines 86–91: `float()` conversion (failure → 400
"Invalid amount_sol") then the range test `amount_sol <= 0 or
amount_sol > 0.5` (→ 400 "amount_sol out of range"). -/
inductive AmountCheck where
  | invalid
  | outOfRange
  | okA (a : PyFloat)
  deriving DecidableEq, Repr

/-- Lines 86–91 of `reward_send`. -/
def checkAmount (v : JVal) : AmountCheck :=
  match pyFloatOf v with
  | none => .invalid
  | some a =>
    if ple a (.fin 0) || pgt a (.fin (1 / 2)) then .outOfRange else .okA a

/-- `POST /reward/send` (lines 74–142).  Parameters: the configured default
reward amount, the payer public key string, the RPC oracle, the wall-clock
times observed by the sweep and by the record write, the `PAID` store before
the request, and the request body. -/
def reward_send (defaultAmount : PyFloat) (payer_pubkey : String)
    (net : NetOutcome) (nowSweep nowRecord : ℚ) (paid : Store)
    (body : ReqBody) : HandlerResult :=
  let paid1 := cleanup_paid nowSweep paid
  let receiver := body.receiver_wallet_address.getD .jnull
  let amount0 := body.amount_sol.getD (.jfloat defaultAmount)
  let idem := body.idempotency_key.getD .jnull
  if ¬ truthy receiver then
    ⟨.json [("ok", .jbool false),
            ("error", .jstr "Missing receiver_wallet_address")] 400, paid1, []⟩
  else
    match checkAmount amount0 with
    | .invalid =>
      ⟨.json [("ok", .jbool false), ("error", .jstr "Invalid amount_sol")] 400,
       paid1, []⟩
    | .outOfRange =>
      ⟨.json [("ok", .jbool false), ("error", .jstr "amount_sol out of range")] 400,
       paid1, []⟩
    | .okA a =>
      match receiver with
      | .jstr rstr =>
        if validPubkey rstr then
          let key := (rstr, pyStr idem)
          match (if truthy idem then lookupPaid paid1 key else none) with
          | some (sig, _) =>
            ⟨.json [("ok", .jbool true), ("signature", .jstr sig),
                    ("already_paid", .jbool true)] 200, paid1, []⟩
          | none =>
            match pyInt (mulLamports a) with
            | none => ⟨.crash "int() of non-finite amount", paid1, []⟩
            | some lamports =>
              match net with
              | .blockhashFail e =>
                ⟨.json [("ok", .jbool false), ("error", .jstr e)] 500, paid1, []⟩
              | .sendFail e =>
                ⟨.json [("ok", .jbool false), ("error", .jstr e)] 500, paid1,
                 [⟨rstr, lamports⟩]⟩
              | .success sig =>
                let paid2 :=
                  if truthy idem then insertPaid paid1 key (sig, nowRecord)
                  else paid1
                ⟨.json [("ok", .jbool true), ("signature", .jstr sig),
                        ("from_wallet", .jstr payer_pubkey),
                        ("to_wallet", .jstr rstr),
                        ("amount_sol", .jfloat a),
                        ("already_paid", .jbool false)] 200, paid2,
                 [⟨rstr, lamports⟩]⟩
        else
          ⟨.json [("ok", .jbool false),
                  ("error", .jstr "Invalid receiver wallet address")] 400,
           paid1, []⟩
      | _ =>
        ⟨.json [("ok", .jbool false),
                ("error", .jstr "Invalid receiver wallet address")] 400,
         paid1, []⟩


/-! ### Store lemmas -/

theorem lookupPaid_insertPaid_self (s : Store) (k : String × String)
    (v : String × ℚ) : lookupPaid (insertPaid s k v) k = some v := by
  induction s with
  | nil => simp [insertPaid, lookupPaid]
  | cons e rest ih =>
    obtain ⟨k', w⟩ := e
    by_cases h : k' = k
    · simp [insertPaid, lookupPaid, h]
    · simp [insertPaid, lookupPaid, h, ih]

theorem lookupPaid_cleanup_insertPaid (now : ℚ) (s : Store) (k : String × String)
    (v : String × ℚ) (h : ¬ now - v.2 > PAID_TTL_SEC) :
    lookupPaid (cleanup_paid now (insertPaid s k v)) k = some v := by
  induction s with
  | nil => simp [insertPaid, cleanup_paid, lookupPaid, h]
  | cons e rest ih =>
    obtain ⟨k', w⟩ := e
    by_cases hk : k' = k
    · simp [insertPaid, cleanup_paid, lookupPaid, hk, h]
    · by_cases hw : now - w.2 > PAID_TTL_SEC
      · simp [insertPaid, cleanup_paid, lookupPaid, hk, hw, ih]
      · simp [insertPaid, cleanup_paid, lookupPaid, hk, hw, ih]

theorem lookupPaid_cleanup_of_none (now : ℚ) (s : Store) (k : String × String)
    (h : lookupPaid s k = none) :
    lookupPaid (cleanup_paid now s) k = none := by
  induction s with
  | nil => simp [cleanup_paid, lookupPaid]
  | cons e rest ih =>
    obtain ⟨k', w⟩ := e
    by_cases hk : k' = k
    · simp [lookupPaid, hk] at h
    · simp only [lookupPaid, if_neg hk] at h
      by_cases hw : now - w.2 > PAID_TTL_SEC
      · simp [cleanup_paid, hw, ih h]
      · simp [cleanup_paid, hw, lookupPaid, hk, ih h]

theorem mem_cleanup_paid (now : ℚ) (s : Store)
    (e : (String × String) × (String × ℚ)) :
    e ∈ cleanup_paid now s ↔ e ∈ s ∧ ¬ now - e.2.2 > PAID_TTL_SEC := by
  induction s with
  | nil => simp [cleanup_paid]
  | cons f rest ih =>
    obtain ⟨k', w⟩ := f
    by_cases hw : now - w.2 > PAID_TTL_SEC
    · simp only [cleanup_paid, if_pos hw]
      rw [ih]
      constructor
      · rintro ⟨h1, h2⟩
        exact ⟨List.mem_cons_of_mem _ h1, h2⟩
      · rintro ⟨h1, h2⟩
        rcases List.mem_cons.mp h1 with h1 | h1
        · subst h1
          exact absurd hw h2
        · exact ⟨h1, h2⟩
    · simp only [cleanup_paid, if_neg hw, List.mem_cons]
      rw [ih]
      constructor
      · rintro (h1 | ⟨h1, h2⟩)
        · subst h1
          exact ⟨Or.inl rfl, hw⟩
        · exact ⟨Or.inr h1, h2⟩
      · rintro ⟨h1 | h1, h2⟩
        · exact Or.inl h1
        · exact Or.inr ⟨h1, h2⟩

/-- A string accepted by `Pubkey.from_string` is nonempty, hence truthy. -/
theorem validPubkey_ne_empty (r : String) (h : validPubkey r = true) : r ≠ "" := by
  intro he
  subst he
  exact absurd h (by decide)

/-! ### Handler path lemmas -/

/-- The 200 response of a fresh successful submission (lines 135–142). -/
def freshResp (sig payer rstr : String) (a : PyFloat) : HResp :=
  .json [("ok", .jbool true), ("signature", .jstr sig),
         ("from_wallet", .jstr payer), ("to_wallet", .jstr rstr),
         ("amount_sol", .jfloat a), ("already_paid", .jbool false)] 200

/-- The 200 response of an idempotent short-circuit (lines 102–106). -/
def shortResp (sig : String) : HResp :=
  .json [("ok", .jbool true), ("signature", .jstr sig),
         ("already_paid", .jbool true)] 200

theorem truthy_jstr_of_valid (r : String) (hr : validPubkey r = true) :
    truthy (.jstr r) = true := by
  have hne := validPubkey_ne_empty r hr
  simp [truthy, hne]

theorem reward_send_fresh_success_keyed
    (defA : PyFloat) (payer r sig : String) (a : PyFloat) (lam : ℤ)
    (ts tr : ℚ) (paid : Store) (body : ReqBody)
    (hrec : body.receiver_wallet_address = some (.jstr r))
    (hr : validPubkey r = true)
    (hamt : checkAmount (body.amount_sol.getD (.jfloat defA)) = .okA a)
    (hlam : pyInt (mulLamports a) = some lam)
    (hkey : truthy (body.idempotency_key.getD .jnull) = true)
    (hmiss : lookupPaid (cleanup_paid ts paid)
      (r, pyStr (body.idempotency_key.getD .jnull)) = none) :
    reward_send defA payer (.success sig) ts tr paid body =
      ⟨freshResp sig payer r a,
       insertPaid (cleanup_paid ts paid)
         (r, pyStr (body.idempotency_key.getD .jnull)) (sig, tr),
       [⟨r, lam⟩]⟩ := by
  have htr := truthy_jstr_of_valid r hr
  simp only [reward_send, hrec, Option.getD_some, htr, hamt, hr, hkey, hmiss,
    hlam, freshResp]
  simp

theorem reward_send_short_circuit
    (defA : PyFloat) (payer r sig : String) (a : PyFloat) (ts0 ts tr : ℚ)
    (net : NetOutcome) (paid : Store) (body : ReqBody)
    (hrec : body.receiver_wallet_address = some (.jstr r))
    (hr : validPubkey r = true)
    (hamt : checkAmount (body.amount_sol.getD (.jfloat defA)) = .okA a)
    (hkey : truthy (body.idempotency_key.getD .jnull) = true)
    (hhit : lookupPaid (cleanup_paid ts paid)
      (r, pyStr (body.idempotency_key.getD .jnull)) = some (sig, ts0)) :
    reward_send defA payer net ts tr paid body =
      ⟨shortResp sig, cleanup_paid ts paid, []⟩ := by
  have htr := truthy_jstr_of_valid r hr
  simp only [reward_send, hrec, Option.getD_some, htr, hamt, hr, hkey, hhit,
    shortResp]
  simp

theorem reward_send_send_fail
    (defA : PyFloat) (payer r e : String) (a : PyFloat) (lam : ℤ)
    (ts tr : ℚ) (paid : Store) (body : ReqBody)
    (hrec : body.receiver_wallet_address = some (.jstr r))
    (hr : validPubkey r = true)
    (hamt : checkAmount (body.amount_sol.getD (.jfloat defA)) = .okA a)
    (hlam : pyInt (mulLamports a) = some lam)
    (hmiss : (if truthy (body.idempotency_key.getD .jnull) = true then
      lookupPaid (cleanup_paid ts paid)
        (r, pyStr (body.idempotency_key.getD .jnull)) else none) = none) :
    reward_send defA payer (.sendFail e) ts tr paid body =
      ⟨.json [("ok", .jbool false), ("error", .jstr e)] 500,
       cleanup_paid ts paid, [⟨r, lam⟩]⟩ := by
  have htr := truthy_jstr_of_valid r hr
  simp only [reward_send, hrec, Option.getD_some, htr, hamt, hr, hmiss, hlam]
  simp

theorem reward_send_blockhash_fail
    (defA : PyFloat) (payer r e : String) (a : PyFloat) (lam : ℤ)
    (ts tr : ℚ) (paid : Store) (body : ReqBody)
    (hrec : body.receiver_wallet_address = some (.jstr r))
    (hr : validPubkey r = true)
    (hamt : checkAmount (body.amount_sol.getD (.jfloat defA)) = .okA a)
    (hlam : pyInt (mulLamports a) = some lam)
    (hmiss : (if truthy (body.idempotency_key.getD .jnull) = true then
      lookupPaid (cleanup_paid ts paid)
        (r, pyStr (body.idempotency_key.getD .jnull)) else none) = none) :
    reward_send defA payer (.blockhashFail e) ts tr paid body =
      ⟨.json [("ok", .jbool false), ("error", .jstr e)] 500,
       cleanup_paid ts paid, []⟩ := by
  have htr := truthy_jstr_of_valid r hr
  simp only [reward_send, hrec, Option.getD_some, htr, hamt, hr, hmiss, hlam]
  simp

theorem reward_send_fresh_success_unkeyed
    (defA : PyFloat) (payer r sig : String) (a : PyFloat) (lam : ℤ)
    (ts tr : ℚ) (paid : Store) (body : ReqBody)
    (hrec : body.receiver_wallet_address = some (.jstr r))
    (hr : validPubkey r = true)
    (hamt : checkAmount (body.amount_sol.getD (.jfloat defA)) = .okA a)
    (hlam : pyInt (mulLamports a) = some lam)
    (hkey : truthy (body.idempotency_key.getD .jnull) = false) :
    reward_send defA payer (.success sig) ts tr paid body =
      ⟨freshResp sig payer r a, cleanup_paid ts paid, [⟨r, lam⟩]⟩ := by
  have htr := truthy_jstr_of_valid r hr
  simp only [reward_send, hrec, Option.getD_some, htr, hamt, hr, hkey, hlam,
    freshResp]
  simp

/-- Every 400 response leaves the store exactly as the sweep left it, makes
no `send_transaction` call, and writes no idempotency record. -/
theorem reward_send_400_frame
    (defA : PyFloat) (payer : String) (net : NetOutcome) (ts tr : ℚ)
    (paid : Store) (body : ReqBody) (obj : List (String × JVal)) :
    (reward_send defA payer net ts tr paid body).resp = .json obj 400 →
    (reward_send defA payer net ts tr paid body).store = cleanup_paid ts paid ∧
    (reward_send defA payer net ts tr paid body).submits = [] := by
  rcases body with ⟨brec, bamt, bkey⟩
  unfold reward_send
  simp only
  repeat' split
  all_goals intro h400
  all_goals first
    | exact ⟨rfl, rfl⟩
    | simp at h400

/-! ### Claims -/

/-- Claim C5: `cleanup_paid`, invoked at the start of every submission
request before any lookup, removes from `PAID` exactly the records whose age
`now - recordedAt` exceeds the 7-day TTL and keeps every younger record; a
subsequent keyed call whose only matching record has expired misses the
lookup and performs a fresh submission, recording the new signature. -/
theorem C5_sweep_purges_expired (now : ℚ) (s : Store) :
    (∀ e, e ∈ cleanup_paid now s ↔ e ∈ s ∧ ¬ now - e.2.2 > PAID_TTL_SEC) ∧
    (∀ (defA a : PyFloat) (payer r sig0 sig : String) (lam : ℤ)
       (amt : Option JVal) (idemv : JVal) (ts0 tr : ℚ),
      validPubkey r = true →
      checkAmount (amt.getD (.jfloat defA)) = .okA a →
      pyInt (mulLamports a) = some lam →
      truthy idemv = true →
      now - ts0 > PAID_TTL_SEC →
      reward_send defA payer (.success sig) now tr
          [((r, pyStr idemv), (sig0, ts0))] ⟨some (.jstr r), amt, some idemv⟩ =
        ⟨freshResp sig payer r a, [((r, pyStr idemv), (sig, tr))],
         [⟨r, lam⟩]⟩) := by
  refine ⟨mem_cleanup_paid now s, ?_⟩
  intro defA a payer r sig0 sig lam amt idemv ts0 tr hr hamt hlam hkey hexp
  have hswept : cleanup_paid now [((r, pyStr idemv), (sig0, ts0))] = [] := by
    simp [cleanup_paid, hexp]
  have h := reward_send_fresh_success_keyed defA payer r sig a lam now tr
    [((r, pyStr idemv), (sig0, ts0))] ⟨some (.jstr r), amt, some idemv⟩
    rfl hr hamt hlam hkey (by rw [hswept]; rfl)
  rw [h, hswept]
  rfl

/-- Claim C5 witness at a concrete expired record. -/
theorem C5_sweep_purges_expired_witness :
    reward_send (.fin (1 / 100)) "PAYER" (.success "sigNew") 1000000 1000001
        [((String.mk (List.replicate 32 '1'), "abc"), ("sigOld", 0))]
        ⟨some (.jstr (String.mk (List.replicate 32 '1'))), none,
         some (.jstr "abc")⟩ =
      ⟨freshResp "sigNew" "PAYER" (String.mk (List.replicate 32 '1'))
         (.fin (1 / 100)),
       [((String.mk (List.replicate 32 '1'), "abc"), ("sigNew", 1000001))],
       [⟨String.mk (List.replicate 32 '1'), 10000000⟩]⟩ :=
  (C5_sweep_purges_expired 1000000 []).2 (.fin (1 / 100)) (.fin (1 / 100))
    "PAYER" (String.mk (List.replicate 32 '1')) "sigOld" "sigNew" 10000000
    none (.jstr "abc") 0 1000001 (by decide) (by decide) (by decide) (by decide)
    (by decide)

set_option maxRecDepth 8000 in
/-- Claim C9 counterexample: a secret that is present and base58-decodes to
exactly 64 bytes on which initialization nevertheless aborts.  The string of
64 `'1'`s decodes to 64 zero bytes; `Keypair.from_bytes` on those bytes
raises in solders — the all-zero public-key half is not the public key
derived from the all-zero secret half — which the oracle instantiation
records, so the claim's "otherwise startup completes" direction is false. -/
theorem C9_counterexample :
    b58decode (String.mk (List.replicate 64 '1')) =
      some (List.replicate 64 0) ∧
    (List.replicate 64 0).length = 64 ∧
    startup (some (String.mk (List.replicate 64 '1')))
        (fun _ => .error "invalid keypair bytes") =
      .error "invalid keypair bytes" :=
  ⟨by decide, by decide, rfl⟩

/-- Claim C9 (amended): process initialization aborts exactly when the payer
secret is absent (or empty, which decodes to 0 bytes), does not
base58-decode to a 64-byte key, or the 64 decoded bytes are rejected by the
keypair constructor (`Keypair.from_bytes` raising on an invalid or
mismatched ed25519 public-key half); otherwise startup completes with the
payer identity the constructor returns — never mutated afterwards:
`reward_send` only reads the derived `payer_pubkey`. -/
theorem C9_startup_fail_fast (s : Option String)
    (fromBytes : List ℕ → Except String (List ℕ)) :
    ((∃ e, startup s fromBytes = .error e) ↔
      ¬ ∃ t bs kp, s = some t ∧ b58decode t = some bs ∧ bs.length = 64 ∧
        fromBytes bs = .ok kp) ∧
    (∀ t bs kp, s = some t → b58decode t = some bs → bs.length = 64 →
      fromBytes bs = .ok kp → startup s fromBytes = .ok kp) := by
  cases s with
  | none =>
    constructor
    · constructor
      · rintro _ ⟨t, bs, kp, ht, _⟩
        exact Option.noConfusion ht
      · intro _
        exact ⟨"Missing REWARD_WALLET_SECRET_BASE58", rfl⟩
    · intro t bs kp ht
      exact absurd ht (by simp)
  | some t =>
    by_cases ht : t = ""
    · subst ht
      constructor
      · constructor
        · rintro _ ⟨t, bs, kp, ht, hb, hlen, _⟩
          obtain rfl : t = "" := by injection ht with h; exact h.symm
          rw [show b58decode "" = some [] from rfl] at hb
          obtain rfl : bs = [] := by injection hb with h; exact h.symm
          simp at hlen
        · intro _
          exact ⟨"Missing REWARD_WALLET_SECRET_BASE58", rfl⟩
      · intro u bs kp hu hb hlen
        obtain rfl : u = "" := by injection hu with h; exact h.symm
        rw [show b58decode "" = some [] from rfl] at hb
        obtain rfl : bs = [] := by injection hb with h; exact h.symm
        simp at hlen
    · cases hb : b58decode t with
      | none =>
        constructor
        · constructor
          · rintro _ ⟨u, bs, kp, hu, hbu, _⟩
            obtain rfl : u = t := by injection hu with h; exact h.symm
            rw [hb] at hbu
            exact Option.noConfusion hbu
          · intro _
            refine ⟨"base58 decode failure", ?_⟩
            simp [startup, ht, hb]
        · intro u bs kp hu hbu
          obtain rfl : u = t := by injection hu with h; exact h.symm
          rw [hb] at hbu
          exact absurd hbu (by simp)
      | some bytes =>
        by_cases hlen : bytes.length = 64
        · cases hk : fromBytes bytes with
          | error e =>
            constructor
            · constructor
              · rintro _ ⟨u, bs, kp, hu, hbu, hl, hku⟩
                obtain rfl : u = t := by injection hu with h; exact h.symm
                rw [hb] at hbu
                obtain rfl : bs = bytes := by injection hbu with h; exact h.symm
                rw [hk] at hku
                exact Except.noConfusion hku
              · intro _
                refine ⟨e, ?_⟩
                simp [startup, ht, hb, hlen, hk]
            · intro u bs kp hu hbu hl hku
              obtain rfl : u = t := by injection hu with h; exact h.symm
              rw [hb] at hbu
              obtain rfl : bs = bytes := by injection hbu with h; exact h.symm
              rw [hk] at hku
              exact Except.noConfusion hku
          | ok kp =>
            constructor
            · constructor
              · intro ⟨e, he⟩
                rw [show startup (some t) fromBytes = .ok kp from by
                  simp [startup, ht, hb, hlen, hk]] at he
                exact Except.noConfusion he
              · intro hno
                exact absurd ⟨t, bytes, kp, rfl, hb, hlen, hk⟩ hno
            · intro u bs kp2 hu hbu hl hku
              obtain rfl : u = t := by injection hu with h; exact h.symm
              rw [hb] at hbu
              obtain rfl : bs = bytes := by injection hbu with h; exact h.symm
              rw [hk] at hku
              obtain rfl : kp2 = kp := by injection hku with h; exact h.symm
              simp [startup, ht, hb, hlen, hk]
        · constructor
          · constructor
            · rintro _ ⟨u, bs, kp, hu, hbu, hl, _⟩
              obtain rfl : u = t := by injection hu with h; exact h.symm
              rw [hb] at hbu
              obtain rfl : bs = bytes := by injection hbu with h; exact h.symm
              exact hlen hl
            · intro _
              refine ⟨"REWARD_WALLET_SECRET_BASE58 must decode to 64 bytes", ?_⟩
              simp [startup, ht, hb, hlen]
          · intro u bs kp hu hbu hl
            obtain rfl : u = t := by injection hu with h; exact h.symm
            rw [hb] at hbu
            obtain rfl : bs = bytes := by injection hbu with h; exact h.symm
            exact absurd hl hlen

set_option maxRecDepth 8000 in
/-- Claim C9 witness: a present 64-byte secret accepted by the keypair
constructor starts up with that keypair; the absent secret aborts. -/
theorem C9_startup_fail_fast_witness :
    startup (some (String.mk (List.replicate 64 '1'))) (fun bs => .ok bs) =
      .ok (List.replicate 64 0) ∧
    ∃ e, startup none (fun bs => .ok bs) = .error e :=
  ⟨(C9_startup_fail_fast (some (String.mk (List.replicate 64 '1')))
      (fun bs => .ok bs)).2 (String.mk (List.replicate 64 '1'))
      (List.replicate 64 0) (List.replicate 64 0) rfl (by decide) (by decide)
      rfl,
   (C9_startup_fail_fast none (fun bs => .ok bs)).1.mpr
     (by rintro ⟨t, bs, kp, ht, _⟩; exact Option.noConfusion ht)⟩

/-- Claim C6 counterexample: the claim "the idempotency store after the
response equals the store before the request arrived" fails, because
`cleanup_paid` runs unconditionally before validation — a request with a
missing recipient still sweeps an expired record out of the store. -/
theorem C6_counterexample :
    (reward_send (.fin (1 / 100)) "PAYER" (.success "sig") 1000000 1000000
        [(("R", "k"), ("sig0", 0))] ⟨none, none, none⟩).resp =
      .json [("ok", .jbool false),
             ("error", .jstr "Missing receiver_wallet_address")] 400 ∧
    (reward_send (.fin (1 / 100)) "PAYER" (.success "sig") 1000000 1000000
        [(("R", "k"), ("sig0", 0))] ⟨none, none, none⟩).store = [] ∧
    ([(("R", "k"), ("sig0", 0))] : Store) ≠ [] := by
  refine ⟨by decide, by decide, by decide⟩

/-- Claim C6 (amended): every request rejected with a 400 `ValidationError`
(missing or malformed recipient, or bad amount) gets a `{ok: false, error}`
body, makes no network submission, and writes no record — the store after
the response equals the store after the unconditional TTL sweep (the sweep
itself may remove expired records even on rejected requests). -/
theorem C6_validation_rejection_frame
    (defA : PyFloat) (payer : String) (net : NetOutcome) (ts tr : ℚ)
    (paid : Store) (body : ReqBody) (obj : List (String × JVal)) :
    (reward_send defA payer net ts tr paid body).resp = .json obj 400 →
    (∃ msg, (reward_send defA payer net ts tr paid body).resp =
        .json [("ok", .jbool false), ("error", .jstr msg)] 400) ∧
    (reward_send defA payer net ts tr paid body).store = cleanup_paid ts paid ∧
    (reward_send defA payer net ts tr paid body).submits = [] := by
  rcases body with ⟨brec, bamt, bkey⟩
  unfold reward_send
  simp only
  repeat' split
  all_goals intro h400
  all_goals first
    | exact ⟨⟨_, rfl⟩, rfl, rfl⟩
    | simp at h400

/-- Claim C6 witness: a request with a missing recipient. -/
theorem C6_validation_rejection_frame_witness :
    (∃ msg, (reward_send (.fin (1 / 100)) "PAYER" (.success "sig") 0 0 []
        ⟨none, none, none⟩).resp =
      .json [("ok", .jbool false), ("error", .jstr msg)] 400) ∧
    (reward_send (.fin (1 / 100)) "PAYER" (.success "sig") 0 0 []
        ⟨none, none, none⟩).store = cleanup_paid 0 [] ∧
    (reward_send (.fin (1 / 100)) "PAYER" (.success "sig") 0 0 []
        ⟨none, none, none⟩).submits = [] :=
  C6_validation_rejection_frame (.fin (1 / 100)) "PAYER" (.success "sig") 0 0
    [] ⟨none, none, none⟩
    [("ok", .jbool false), ("error", .jstr "Missing receiver_wallet_address")]
    (by decide)

/-- Claim C7: a request that supplies no idempotency key is never
deduplicated: whatever the store contains, a successful call submits a fresh
transfer (exactly one `send_transaction`), responds `already_paid = false`,
and writes no record — the store is exactly what the sweep left. -/
theorem C7_no_key_always_fresh
    (defA a : PyFloat) (payer r sig : String) (lam : ℤ) (amt : Option JVal)
    (ts tr : ℚ) (paid : Store)
    (hr : validPubkey r = true)
    (hamt : checkAmount (amt.getD (.jfloat defA)) = .okA a)
    (hlam : pyInt (mulLamports a) = some lam) :
    reward_send defA payer (.success sig) ts tr paid
        ⟨some (.jstr r), amt, none⟩ =
      ⟨freshResp sig payer r a, cleanup_paid ts paid, [⟨r, lam⟩]⟩ :=
  reward_send_fresh_success_unkeyed defA payer r sig a lam ts tr paid
    ⟨some (.jstr r), amt, none⟩ rfl hr hamt hlam rfl

/-- Claim C7 witness: two identical key-less requests in a row both submit. -/
theorem C7_no_key_always_fresh_witness :
    reward_send (.fin (1 / 100)) "PAYER" (.success "sigB") 2 3
        (reward_send (.fin (1 / 100)) "PAYER" (.success "sigA") 0 1 []
          ⟨some (.jstr (String.mk (List.replicate 32 '1'))), none, none⟩).store
        ⟨some (.jstr (String.mk (List.replicate 32 '1'))), none, none⟩ =
      ⟨freshResp "sigB" "PAYER" (String.mk (List.replicate 32 '1'))
         (.fin (1 / 100)),
       [], [⟨String.mk (List.replicate 32 '1'), 10000000⟩]⟩ :=
  C7_no_key_always_fresh (.fin (1 / 100)) (.fin (1 / 100)) "PAYER"
    (String.mk (List.replicate 32 '1')) "sigB" 10000000 none 2 3
    (reward_send (.fin (1 / 100)) "PAYER" (.success "sigA") 0 1 []
      ⟨some (.jstr (String.mk (List.replicate 32 '1'))), none, none⟩).store
    (by decide) (by decide) (by decide)

/-- Claim C10: an `idempotency_key` field that is present but falsy as a
JSON scalar (empty string, 0, 0.0, false, or null) is treated exactly as an
absent key: no lookup hit is possible, the call submits a fresh transfer,
and no record is written. -/
theorem C10_falsy_key_treated_as_absent
    (defA a : PyFloat) (payer r sig : String) (lam : ℤ) (amt : Option JVal)
    (v : JVal) (ts tr : ℚ) (paid : Store)
    (hv : truthy v = false)
    (hr : validPubkey r = true)
    (hamt : checkAmount (amt.getD (.jfloat defA)) = .okA a)
    (hlam : pyInt (mulLamports a) = some lam) :
    reward_send defA payer (.success sig) ts tr paid
        ⟨some (.jstr r), amt, some v⟩ =
      ⟨freshResp sig payer r a, cleanup_paid ts paid, [⟨r, lam⟩]⟩ :=
  reward_send_fresh_success_unkeyed defA payer r sig a lam ts tr paid
    ⟨some (.jstr r), amt, some v⟩ rfl hr hamt hlam hv

/-- Claim C10 witness: key `""` on a store already holding a record under
that very key — the record is ignored and a fresh transfer is submitted. -/
theorem C10_falsy_key_treated_as_absent_witness :
    reward_send (.fin (1 / 100)) "PAYER" (.success "sigNew") 0 1
        [((String.mk (List.replicate 32 '1'), ""), ("sigOld", 0))]
        ⟨some (.jstr (String.mk (List.replicate 32 '1'))), none,
         some (.jstr "")⟩ =
      ⟨freshResp "sigNew" "PAYER" (String.mk (List.replicate 32 '1'))
         (.fin (1 / 100)),
       [((String.mk (List.replicate 32 '1'), ""), ("sigOld", 0))],
       [⟨String.mk (List.replicate 32 '1'), 10000000⟩]⟩ :=
  C10_falsy_key_treated_as_absent (.fin (1 / 100)) (.fin (1 / 100)) "PAYER"
    (String.mk (List.replicate 32 '1')) "sigNew" 10000000 none (.jstr "") 0 1
    [((String.mk (List.replicate 32 '1'), ""), ("sigOld", 0))]
    (by decide) (by decide) (by decide) (by decide)

/-- Claim C1: submitting the same (recipient, key) pair twice in sequence —
the first call succeeding on the network — yields the same signature both
times, the ledger submit operation is invoked exactly once (first call one
`send_transaction`, second call none: it is short-circuited from the stored
record), and the second response carries `already_paid = true`. -/
theorem C1_idempotent_replay
    (defA a : PyFloat) (payer r sig1 : String) (lam : ℤ) (amt : Option JVal)
    (idemv : JVal) (net2 : NetOutcome) (t1s t1r t2s t2r : ℚ) (paid : Store)
    (hr : validPubkey r = true)
    (hamt : checkAmount (amt.getD (.jfloat defA)) = .okA a)
    (hlam : pyInt (mulLamports a) = some lam)
    (hkey : truthy idemv = true)
    (hmiss : lookupPaid (cleanup_paid t1s paid) (r, pyStr idemv) = none)
    (hfresh : ¬ t2s - t1r > PAID_TTL_SEC) :
    (reward_send defA payer (.success sig1) t1s t1r paid
        ⟨some (.jstr r), amt, some idemv⟩).resp = freshResp sig1 payer r a ∧
    (reward_send defA payer net2 t2s t2r
        (reward_send defA payer (.success sig1) t1s t1r paid
          ⟨some (.jstr r), amt, some idemv⟩).store
        ⟨some (.jstr r), amt, some idemv⟩).resp = shortResp sig1 ∧
    (reward_send defA payer (.success sig1) t1s t1r paid
        ⟨some (.jstr r), amt, some idemv⟩).submits = [⟨r, lam⟩] ∧
    (reward_send defA payer net2 t2s t2r
        (reward_send defA payer (.success sig1) t1s t1r paid
          ⟨some (.jstr r), amt, some idemv⟩).store
        ⟨some (.jstr r), amt, some idemv⟩).submits = [] := by
  have h1 := reward_send_fresh_success_keyed defA payer r sig1 a lam t1s t1r
    paid ⟨some (.jstr r), amt, some idemv⟩ rfl hr hamt hlam hkey hmiss
  have hhit : lookupPaid
      (cleanup_paid t2s (reward_send defA payer (.success sig1) t1s t1r paid
        ⟨some (.jstr r), amt, some idemv⟩).store)
      (r, pyStr idemv) = some (sig1, t1r) := by
    rw [h1]
    exact lookupPaid_cleanup_insertPaid t2s (cleanup_paid t1s paid)
      (r, pyStr idemv) (sig1, t1r) hfresh
  have h2 := reward_send_short_circuit defA payer r sig1 a t1r t2s t2r net2
    (reward_send defA payer (.success sig1) t1s t1r paid
      ⟨some (.jstr r), amt, some idemv⟩).store
    ⟨some (.jstr r), amt, some idemv⟩ rfl hr hamt hkey hhit
  rw [h2, h1]
  exact ⟨rfl, rfl, rfl, rfl⟩

/-- Claim C1 witness: same pair twice, one network submission in total. -/
theorem C1_idempotent_replay_witness :
    (reward_send (.fin (1 / 100)) "PAYER" (.success "sig1") 0 1 []
        ⟨some (.jstr (String.mk (List.replicate 32 '1'))), none,
         some (.jstr "abc")⟩).resp =
      freshResp "sig1" "PAYER" (String.mk (List.replicate 32 '1'))
        (.fin (1 / 100)) ∧
    (reward_send (.fin (1 / 100)) "PAYER" (.success "sig2") 2 3
        (reward_send (.fin (1 / 100)) "PAYER" (.success "sig1") 0 1 []
          ⟨some (.jstr (String.mk (List.replicate 32 '1'))), none,
           some (.jstr "abc")⟩).store
        ⟨some (.jstr (String.mk (List.replicate 32 '1'))), none,
         some (.jstr "abc")⟩).resp = shortResp "sig1" ∧
    (reward_send (.fin (1 / 100)) "PAYER" (.success "sig1") 0 1 []
        ⟨some (.jstr (String.mk (List.replicate 32 '1'))), none,
         some (.jstr "abc")⟩).submits =
      [⟨String.mk (List.replicate 32 '1'), 10000000⟩] ∧
    (reward_send (.fin (1 / 100)) "PAYER" (.success "sig2") 2 3
        (reward_send (.fin (1 / 100)) "PAYER" (.success "sig1") 0 1 []
          ⟨some (.jstr (String.mk (List.replicate 32 '1'))), none,
           some (.jstr "abc")⟩).store
        ⟨some (.jstr (String.mk (List.replicate 32 '1'))), none,
         some (.jstr "abc")⟩).submits = [] :=
  C1_idempotent_replay (.fin (1 / 100)) (.fin (1 / 100)) "PAYER"
    (String.mk (List.replicate 32 '1')) "sig1" 10000000 none (.jstr "abc")
    (.success "sig2") 0 1 2 3 [] (by decide) (by decide) (by decide)
    (by decide) (by decide) (by decide)

/-- Claim C2: if the blockhash fetch or the transaction send fails, the
handler returns the 500 `{ok: false, error}` response and writes no
idempotency record — the store is exactly what the sweep left — so an
immediate retry of the same (recipient, key) request misses the lookup and
attempts submission again. -/
theorem C2_network_failure_no_record
    (defA a : PyFloat) (payer r e sig2 : String) (lam : ℤ) (amt : Option JVal)
    (idemv : JVal) (t1s t1r t2s t2r : ℚ) (paid : Store)
    (hr : validPubkey r = true)
    (hamt : checkAmount (amt.getD (.jfloat defA)) = .okA a)
    (hlam : pyInt (mulLamports a) = some lam)
    (hkey : truthy idemv = true)
    (hmiss : lookupPaid (cleanup_paid t1s paid) (r, pyStr idemv) = none) :
    (reward_send defA payer (.blockhashFail e) t1s t1r paid
        ⟨some (.jstr r), amt, some idemv⟩ =
      ⟨.json [("ok", .jbool false), ("error", .jstr e)] 500,
       cleanup_paid t1s paid, []⟩) ∧
    (reward_send defA payer (.sendFail e) t1s t1r paid
        ⟨some (.jstr r), amt, some idemv⟩ =
      ⟨.json [("ok", .jbool false), ("error", .jstr e)] 500,
       cleanup_paid t1s paid, [⟨r, lam⟩]⟩) ∧
    (reward_send defA payer (.success sig2) t2s t2r
        (reward_send defA payer (.sendFail e) t1s t1r paid
          ⟨some (.jstr r), amt, some idemv⟩).store
        ⟨some (.jstr r), amt, some idemv⟩).resp =
      freshResp sig2 payer r a ∧
    (reward_send defA payer (.success sig2) t2s t2r
        (reward_send defA payer (.sendFail e) t1s t1r paid
          ⟨some (.jstr r), amt, some idemv⟩).store
        ⟨some (.jstr r), amt, some idemv⟩).submits = [⟨r, lam⟩] := by
  have hmiss' : (if truthy ((some idemv).getD .jnull) = true then
      lookupPaid (cleanup_paid t1s paid)
        (r, pyStr ((some idemv).getD .jnull)) else none) = none := by
    simpa [hkey] using hmiss
  have hbf := reward_send_blockhash_fail defA payer r e a lam t1s t1r paid
    ⟨some (.jstr r), amt, some idemv⟩ rfl hr hamt hlam hmiss'
  have hsf := reward_send_send_fail defA payer r e a lam t1s t1r paid
    ⟨some (.jstr r), amt, some idemv⟩ rfl hr hamt hlam hmiss'
  have hmiss2 : lookupPaid
      (cleanup_paid t2s (reward_send defA payer (.sendFail e) t1s t1r paid
        ⟨some (.jstr r), amt, some idemv⟩).store)
      (r, pyStr idemv) = none := by
    rw [hsf]
    exact lookupPaid_cleanup_of_none t2s (cleanup_paid t1s paid)
      (r, pyStr idemv) hmiss
  have h2 := reward_send_fresh_success_keyed defA payer r sig2 a lam t2s t2r
    (reward_send defA payer (.sendFail e) t1s t1r paid
      ⟨some (.jstr r), amt, some idemv⟩).store
    ⟨some (.jstr r), amt, some idemv⟩ rfl hr hamt hlam hkey hmiss2
  rw [h2]
  exact ⟨hbf, hsf, rfl, rfl⟩

/-- Claim C2 witness: send failure leaves the store empty, the retry
submits and succeeds. -/
theorem C2_network_failure_no_record_witness :
    (reward_send (.fin (1 / 100)) "PAYER" (.blockhashFail "rpc down") 0 1 []
        ⟨some (.jstr (String.mk (List.replicate 32 '1'))), none,
         some (.jstr "abc")⟩ =
      ⟨.json [("ok", .jbool false), ("error", .jstr "rpc down")] 500,
       cleanup_paid 0 [], []⟩) ∧
    (reward_send (.fin (1 / 100)) "PAYER" (.sendFail "rpc down") 0 1 []
        ⟨some (.jstr (String.mk (List.replicate 32 '1'))), none,
         some (.jstr "abc")⟩ =
      ⟨.json [("ok", .jbool false), ("error", .jstr "rpc down")] 500,
       cleanup_paid 0 [],
       [⟨String.mk (List.replicate 32 '1'), 10000000⟩]⟩) ∧
    (reward_send (.fin (1 / 100)) "PAYER" (.success "sig2") 2 3
        (reward_send (.fin (1 / 100)) "PAYER" (.sendFail "rpc down") 0 1 []
          ⟨some (.jstr (String.mk (List.replicate 32 '1'))), none,
           some (.jstr "abc")⟩).store
        ⟨some (.jstr (String.mk (List.replicate 32 '1'))), none,
         some (.jstr "abc")⟩).resp =
      freshResp "sig2" "PAYER" (String.mk (List.replicate 32 '1'))
        (.fin (1 / 100)) ∧
    (reward_send (.fin (1 / 100)) "PAYER" (.success "sig2") 2 3
        (reward_send (.fin (1 / 100)) "PAYER" (.sendFail "rpc down") 0 1 []
          ⟨some (.jstr (String.mk (List.replicate 32 '1'))), none,
           some (.jstr "abc")⟩).store
        ⟨some (.jstr (String.mk (List.replicate 32 '1'))), none,
         some (.jstr "abc")⟩).submits =
      [⟨String.mk (List.replicate 32 '1'), 10000000⟩] :=
  C2_network_failure_no_record (.fin (1 / 100)) (.fin (1 / 100)) "PAYER"
    (String.mk (List.replicate 32 '1')) "rpc down" "sig2" 10000000 none
    (.jstr "abc") 0 1 2 3 [] (by decide) (by decide) (by decide) (by decide)
    (by decide)

/-- Claim C8: the success responses have exactly the specified shapes — a
fresh submission returns the six fields `ok, signature, from_wallet,
to_wallet, amount_sol, already_paid: false`, and a duplicate short-circuit
returns only `ok, signature, already_paid: true`, omitting `from_wallet`,
`to_wallet` and `amount_sol`. -/
theorem C8_success_response_shapes
    (defA a : PyFloat) (payer r sig sig0 : String) (lam : ℤ)
    (amt : Option JVal) (idemv : JVal) (net : NetOutcome) (ts0 ts tr : ℚ)
    (paid : Store)
    (hr : validPubkey r = true)
    (hamt : checkAmount (amt.getD (.jfloat defA)) = .okA a)
    (hlam : pyInt (mulLamports a) = some lam)
    (hkey : truthy idemv = true) :
    (lookupPaid (cleanup_paid ts paid) (r, pyStr idemv) = none →
      (reward_send defA payer (.success sig) ts tr paid
          ⟨some (.jstr r), amt, some idemv⟩).resp =
        .json [("ok", .jbool true), ("signature", .jstr sig),
               ("from_wallet", .jstr payer), ("to_wallet", .jstr r),
               ("amount_sol", .jfloat a),
               ("already_paid", .jbool false)] 200) ∧
    (lookupPaid (cleanup_paid ts paid) (r, pyStr idemv) = some (sig0, ts0) →
      (reward_send defA payer net ts tr paid
          ⟨some (.jstr r), amt, some idemv⟩).resp =
        .json [("ok", .jbool true), ("signature", .jstr sig0),
               ("already_paid", .jbool true)] 200) := by
  constructor
  · intro hmiss
    rw [reward_send_fresh_success_keyed defA payer r sig a lam ts tr paid
      ⟨some (.jstr r), amt, some idemv⟩ rfl hr hamt hlam hkey hmiss]
    rfl
  · intro hhit
    rw [reward_send_short_circuit defA payer r sig0 a ts0 ts tr net paid
      ⟨some (.jstr r), amt, some idemv⟩ rfl hr hamt hkey hhit]
    rfl

/-- Claim C8 witness: both shapes at concrete inputs. -/
theorem C8_success_response_shapes_witness :
    (reward_send (.fin (1 / 100)) "PAYER" (.success "sig1") 0 1 []
        ⟨some (.jstr (String.mk (List.replicate 32 '1'))), none,
         some (.jstr "abc")⟩).resp =
      .json [("ok", .jbool true), ("signature", .jstr "sig1"),
             ("from_wallet", .jstr "PAYER"),
             ("to_wallet", .jstr (String.mk (List.replicate 32 '1'))),
             ("amount_sol", .jfloat (.fin (1 / 100))),
             ("already_paid", .jbool false)] 200 ∧
    (reward_send (.fin (1 / 100)) "PAYER" (.success "sig9") 4 5
        [((String.mk (List.replicate 32 '1'), "abc"), ("sig1", 1))]
        ⟨some (.jstr (String.mk (List.replicate 32 '1'))), none,
         some (.jstr "abc")⟩).resp =
      .json [("ok", .jbool true), ("signature", .jstr "sig1"),
             ("already_paid", .jbool true)] 200 :=
  ⟨(C8_success_response_shapes (.fin (1 / 100)) (.fin (1 / 100)) "PAYER"
      (String.mk (List.replicate 32 '1')) "sig1" "sig0" 10000000 none
      (.jstr "abc") (.success "sig1") 0 0 1 [] (by decide) (by decide)
      (by decide) (by decide)).1 (by decide),
   (C8_success_response_shapes (.fin (1 / 100)) (.fin (1 / 100)) "PAYER"
      (String.mk (List.replicate 32 '1')) "sig9" "sig1" 10000000 none
      (.jstr "abc") (.success "sig9") 1 4 5
      [((String.mk (List.replicate 32 '1'), "abc"), ("sig1", 1))]
      (by decide) (by decide) (by decide) (by decide)).2 (by decide)⟩

/-- Claim C3 counterexample: NaN parses as a (non-finite) float, yet passes
the amount validation of lines 86–91 — `nan <= 0` and `nan > 0.5` are both
false — so instead of the InvalidAmount 400 response the claim requires, the
handler proceeds and crashes at `int(nan * LAMPORTS_PER_SOL)` with an
unhandled exception. -/
theorem C3_counterexample :
    pyFloatOf (.jfloat .nan) = some .nan ∧
    checkAmount (.jfloat .nan) = .okA .nan ∧
    (reward_send (.fin (1 / 100)) "PAYER" (.success "sig") 0 0 []
        ⟨some (.jstr (String.mk (List.replicate 32 '1'))),
         some (.jfloat .nan), none⟩).resp =
      .crash "int() of non-finite amount" :=
  ⟨rfl, rfl, by decide⟩

/-- Claim C3 (amended): validation rejects with the 400 "Invalid amount_sol"
exactly when `float()` fails, and with the 400 "amount_sol out of range"
when the parsed float satisfies `a <= 0 or a > 0.5` — so finite amounts are
accepted iff `0 < a ≤ 0.5` and ±infinity is rejected — but NaN, though
non-finite, parses and passes validation (both comparisons are false with
NaN), so non-finite input is not fully rejected; rejections happen before
any network call and leave the swept store unchanged. -/
theorem C3_amount_validation (v : JVal) :
    (checkAmount v = .invalid ↔ pyFloatOf v = none) ∧
    (∀ q : ℚ, pyFloatOf v = some (.fin q) →
      checkAmount v =
        (if q ≤ 0 ∨ 1 / 2 < q then .outOfRange else .okA (.fin q))) ∧
    (pyFloatOf v = some .inf → checkAmount v = .outOfRange) ∧
    (pyFloatOf v = some .ninf → checkAmount v = .outOfRange) ∧
    (pyFloatOf v = some .nan → checkAmount v = .okA .nan) ∧
    (∀ (defA : PyFloat) (payer r : String) (net : NetOutcome) (ts tr : ℚ)
       (paid : Store) (k : Option JVal),
      truthy (.jstr r) = true →
      checkAmount v = .invalid →
      reward_send defA payer net ts tr paid ⟨some (.jstr r), some v, k⟩ =
        ⟨.json [("ok", .jbool false),
                ("error", .jstr "Invalid amount_sol")] 400,
         cleanup_paid ts paid, []⟩) ∧
    (∀ (defA : PyFloat) (payer r : String) (net : NetOutcome) (ts tr : ℚ)
       (paid : Store) (k : Option JVal),
      truthy (.jstr r) = true →
      checkAmount v = .outOfRange →
      reward_send defA payer net ts tr paid ⟨some (.jstr r), some v, k⟩ =
        ⟨.json [("ok", .jbool false),
                ("error", .jstr "amount_sol out of range")] 400,
         cleanup_paid ts paid, []⟩) := by
  refine ⟨?_, ?_, ?_, ?_, ?_, ?_, ?_⟩
  · cases hp : pyFloatOf v <;> simp [checkAmount, hp]
    split <;> simp
  · intro q hq
    simp only [checkAmount, hq]
    exact if_congr (by simp [ple, pgt]) rfl rfl
  · intro hp
    simp [checkAmount, hp, ple, pgt]
  · intro hp
    simp [checkAmount, hp, ple, pgt]
  · intro hp
    simp [checkAmount, hp, ple, pgt]
  · intro defA payer r net ts tr paid k htr hc
    simp only [reward_send, Option.getD_some, htr, hc]
    simp
  · intro defA payer r net ts tr paid k htr hc
    simp only [reward_send, Option.getD_some, htr, hc]
    simp

/-- Claim C3 witness: the spec's own scenario `amount_sol = 0.6` is rejected
with the out-of-range 400 and no submission. -/
theorem C3_amount_validation_witness :
    reward_send (.fin (1 / 100)) "PAYER" (.success "sig") 0 0 []
        ⟨some (.jstr (String.mk (List.replicate 32 '1'))),
         some (.jfloat (.fin (3 / 5))), none⟩ =
      ⟨.json [("ok", .jbool false),
              ("error", .jstr "amount_sol out of range")] 400,
       cleanup_paid 0 [], []⟩ :=
  (C3_amount_validation (.jfloat (.fin (3 / 5)))).2.2.2.2.2.2 (.fin (1 / 100))
    "PAYER" (String.mk (List.replicate 32 '1')) (.success "sig") 0 0 [] none
    (by decide) (by decide)

end SolRender
